import Mathlib

/-!
Verification model of the Invest-IQ front-end (`src/App.js`).

The component owns four pieces of state (`ticker`, `analysis`, `error`,
`loading`), one action `handleAnalyze`, and a render function.  We embed the
JSON values the HTTP layer exchanges, the state record, the `handleAnalyze`
control flow (as the list of successive states produced by its `setX` calls
together with the list of HTTP requests it issues), and the JSX render tree
(as a list of render items).
-/

/-- JSON values as delivered by the HTTP layer.  Numbers keep their literal
text, which is how they are interpolated into rendered output. -/
inductive Json where
| jnull : Json
| jbool : Bool → Json
| jnum : String → Json
| jstr : String → Json
| jarr : List Json → Json
| jobj : List (String × Json) → Json

/-- JavaScript property access `j.k` on a parsed JSON value: a field lookup on
objects, `undefined` (here `none`) on anything else. -/
def Json.get (j : Json) (k : String) : Option Json :=
  match j with
  | .jobj fs => fs.lookup k
  | _ => none

/-- Whether a numeric literal denotes zero (`0`, `0.0`, `-0`, ...): it has no
digit other than `0`. -/
def numLiteralIsZero (s : String) : Bool :=
  s.toList.all (fun c => !c.isDigit || c == '0')

/-- JavaScript truthiness of a JSON value: `null`, `false`, `0` and `""` are
falsy; every object and array is truthy. -/
def Json.truthy : Json → Bool
  | .jnull => false
  | .jbool b => b
  | .jnum s => !numLiteralIsZero s
  | .jstr _s => !(_s.isEmpty)
  | .jarr _ => true
  | .jobj _ => true

/-- What React renders for a primitive placed as a JSX child (`{value}`):
strings and numbers render as their text, `null` and booleans render
nothing.  (Objects would throw; no claim exercises that.) -/
def Json.inlineText : Json → String
  | .jstr s => s
  | .jnum s => s
  | _ => ""

mutual

/-- What a JavaScript template literal interpolates for a value
(`String(value)`): `null`/`undefined` spell themselves out, arrays join their
elements with commas, plain objects print `[object Object]`. -/
def Json.templateText : Json → String
  | .jnull => "null"
  | .jbool b => if b then "true" else "false"
  | .jnum s => s
  | .jstr s => s
  | .jarr xs => String.intercalate "," (Json.templateTextList xs)
  | .jobj _ => "[object Object]"

/-- Template-literal text of each element of an array. -/
def Json.templateTextList : List Json → List String
  | [] => []
  | x :: xs => Json.templateText x :: Json.templateTextList xs

end

/-- `ind` spaces of indentation. -/
def pad (ind : Nat) : String := String.mk (List.replicate ind ' ')

mutual

/-- `JSON.stringify(v, null, 2)`: pretty-print with two-space indentation,
`ind` being the current indentation depth.  (String escaping is not modelled;
no claim exercises it.) -/
def Json.stringify : Json → Nat → String
  | .jnull, _ => "null"
  | .jbool b, _ => if b then "true" else "false"
  | .jnum s, _ => s
  | .jstr s, _ => "\"" ++ s ++ "\""
  | .jarr [], _ => "[]"
  | .jarr (x :: xs), ind =>
      "[\n" ++ String.intercalate ",\n" (Json.stringifyArr (x :: xs) (ind + 2))
        ++ "\n" ++ pad ind ++ "]"
  | .jobj [], _ => "\x7b\x7d"
  | .jobj (f :: fs), ind =>
      "\x7b\n"
        ++ String.intercalate ",\n" (Json.stringifyFields (f :: fs) (ind + 2))
        ++ "\n" ++ pad ind ++ "\x7d"

/-- Stringify each array element at depth `ind`, indented. -/
def Json.stringifyArr : List Json → Nat → List String
  | [], _ => []
  | x :: xs, ind =>
      (pad ind ++ Json.stringify x ind) :: Json.stringifyArr xs ind

/-- Stringify each object field at depth `ind`, indented. -/
def Json.stringifyFields : List (String × Json) → Nat → List String
  | [], _ => []
  | (k, v) :: fs, ind =>
      (pad ind ++ "\"" ++ k ++ "\": " ++ Json.stringify v ind)
        :: Json.stringifyFields fs ind

end

/-- The four `useState` fields of the `App` component.  `analysis` and `error`
are `null` (`none`) until set. -/
structure AppState where
  ticker : String
  analysis : Option Json
  error : Option Json
  loading : Bool

/-- An outbound HTTP request.  `axios.get` is called with a URL only, so a
request carries no query parameters, headers or body; those are absent from
this record because the code never supplies them. -/
structure Request where
  method : String
  url : String

/-- How the single awaited `axios.get` settles.  `success body` is a 2xx
response whose parsed body is `body` (axios resolves).  `failure resp` is a
thrown error: `resp = none` models a network error with no response
(`err.response` undefined), `resp = some d` a non-2xx response whose
`err.response.data` is `d` (a string when the body was not parseable JSON). -/
inductive HttpResult where
| success : Json → HttpResult
| failure : Option Json → HttpResult

/-- The validation message of the empty-ticker path. -/
def validationMsg : String := "Please enter a stock ticker."

/-- The generic fallback error message. -/
def fallbackMsg : String := "An error occurred."

/-- The value of `err.response?.data?.error || "An error occurred."`:
optional chaining yields the `error` field only when a response body is
present and is an object; `||` keeps it only when truthy. -/
def catchErrorValue (resp : Option Json) : Json :=
  match resp with
  | some d =>
      match d.get "error" with
      | some v => if v.truthy then v else .jstr fallbackMsg
      | none => .jstr fallbackMsg
  | none => .jstr fallbackMsg

/-- `handleAnalyze`, settled with `result`: the list of states after each
successive `setX` call, paired with the list of HTTP requests issued.
`if (!ticker)` — a string is falsy exactly when empty. -/
def handleAnalyze (s : AppState) (result : HttpResult) :
    List AppState × List Request :=
  if s.ticker = "" then
    ([{ s with error := some (.jstr validationMsg) }], [])
  else
    let s1 : AppState := { s with error := none }
    let s2 : AppState := { s1 with loading := true }
    let req : Request :=
      { method := "GET", url := "http://127.0.0.1:8000/analyze/" ++ s.ticker }
    let s3 : AppState :=
      match result with
      | .success body => { s2 with analysis := some body }
      | .failure resp => { s2 with error := some (catchErrorValue resp) }
    let s4 : AppState := { s3 with loading := false }
    ([s1, s2, s3, s4], [req])

/-- The component state once `handleAnalyze` has run to completion. -/
def finalState (s : AppState) (result : HttpResult) : AppState :=
  ((handleAnalyze s result).1).getLastD s

/-- One element of the rendered output: headings (`h1`/`h2`/`h3`), the text
input, the submit button, paragraphs, list items, the `pre` block and the
plot image. -/
inductive RenderItem where
| heading : String → RenderItem
| input : String → String → RenderItem
| button : String → Bool → RenderItem
| para : String → RenderItem
| listItem : String → RenderItem
| pre : String → RenderItem
| image : String → String → RenderItem
deriving DecidableEq

/-- `ticker.toUpperCase()`: upper-case each character. -/
def jsToUpperCase (s : String) : String :=
  String.mk (s.data.map Char.toUpper)

/-- Property access continued from a possibly-undefined value.  (In the
source, access on `undefined` would throw; states reached by the claims
always carry well-formed bodies, so the distinction is never exercised and a
missing step yields a missing field.) -/
def optGet (o : Option Json) (k : String) : Option Json :=
  o.bind (fun j => j.get k)

/-- JSX child text of a possibly-undefined value: `undefined` renders
nothing. -/
def inlineTextOpt : Option Json → String
  | some v => v.inlineText
  | none => ""

/-- Template-literal text of a possibly-undefined value: `undefined`
interpolates as the text `undefined`. -/
def templateTextOpt : Option Json → String
  | some v => v.templateText
  | none => "undefined"

/-- `JSON.stringify(x, null, 2)` of a possibly-undefined value: `undefined`
stringifies to `undefined`, which renders nothing as a JSX child. -/
def stringifyOpt : Option Json → String
  | some v => v.stringify 0
  | none => ""

/-- `Object.entries(x)` as used on `analysis.metrics`: the fields, in
insertion order, of an object; no entries otherwise. -/
def entriesOf : Option Json → List (String × Json)
  | some (.jobj fs) => fs
  | _ => []

/-- `{error && <p className="error">{error}</p>}`: the error paragraph text,
shown only when `error` is truthy. -/
def errorDisplay (s : AppState) : Option String :=
  match s.error with
  | some e => if e.truthy then some e.inlineText else none
  | none => none

/-- The `<li>` items rendered from `Object.entries(analysis.metrics)`, one
per field, in insertion order. -/
def metricItems (a : Json) : List RenderItem :=
  (entriesOf (a.get "metrics")).map
    (fun kv => .listItem (kv.1 ++ ": " ++ kv.2.inlineText))

/-- The `<div>` rendered when `analysis` is truthy. -/
def analysisBlock (tick : String) (a : Json) : List RenderItem :=
  [.heading ("Risk Analysis for " ++ jsToUpperCase tick),
   .para ("Risk Category: "
      ++ inlineTextOpt (optGet (a.get "analysis") "risk_category")),
   .heading "Metrics:"]
  ++ metricItems a
  ++ [.heading "Analysis:",
      .pre (stringifyOpt (a.get "analysis")),
      .heading "Plot:",
      .image ("data:image/png;base64," ++ templateTextOpt (a.get "plot"))
        "Risk Analysis Plot"]

/-- The rendered output of the `App` component for a given state, flattened
to the list of visible elements in document order. -/
def render (s : AppState) : List RenderItem :=
  [.heading "Stock Risk Analyzer",
   .input s.ticker "Enter stock ticker (e.g., RELIANCE.NS)",
   .button (if s.loading then "Analyzing..." else "Analyze") s.loading]
  ++ ((errorDisplay s).toList.map RenderItem.para)
  ++ (match s.analysis with
      | some a => if a.truthy then analysisBlock s.ticker a else []
      | none => [])

/-- The success body of the worked example in the specification. -/
def exampleBody : Json :=
  .jobj [("metrics", .jobj [("volatility", .jnum "0.23")]),
         ("analysis", .jobj [("risk_category", .jstr "High")]),
         ("plot", .jstr "iVBORw0KG...")]

/-- C1: the claim quantifies over whitespace-only tickers, but `if (!ticker)`
only catches the empty string: for the single-space ticker, `handleAnalyze`
issues a network request and the validation message is not set. -/
theorem c1_whitespace_counterexample :
    (handleAnalyze ⟨" ", none, none, false⟩ (.failure none)).2
        = [⟨"GET", "http://127.0.0.1:8000/analyze/ "⟩]
      ∧ (finalState ⟨" ", none, none, false⟩ (.failure none)).error
        ≠ some (.jstr validationMsg) := by
  refine ⟨rfl, ?_⟩
  simp [finalState, handleAnalyze, catchErrorValue, validationMsg, fallbackMsg]

/-- C1 (amended): for the empty ticker string, `analyze()` sets `error` to
the fixed validation message and returns: no request is issued, no other
state is touched, and in particular `loading` is never set in this path. -/
theorem c1_empty_ticker_validation (s : AppState) (r : HttpResult)
    (h : s.ticker = "") :
    handleAnalyze s r
      = ([{ s with error := some (.jstr validationMsg) }], []) := by
  simp [handleAnalyze, h]

/-- C1 witness: the empty-ticker path at a concrete state, leaving a prior
analysis and the `loading` flag untouched. -/
theorem c1_empty_ticker_validation_witness :
    handleAnalyze ⟨"", some (.jobj []), none, true⟩ (.failure none)
      = ([⟨"", some (.jobj []), some (.jstr validationMsg), true⟩], []) :=
  c1_empty_ticker_validation ⟨"", some (.jobj []), none, true⟩
    (.failure none) rfl

/-- C2: for a non-empty ticker, one invocation first clears `error`, then
sets `loading`, issues exactly one GET request to `{baseURL}/analyze/{ticker}`
(a URL-only request: no query parameters, headers or body), and on a 2xx
response replaces `analysis` wholesale with the parsed body, leaving `error`
cleared. -/
theorem c2_success_flow (s : AppState) (body : Json) (h : s.ticker ≠ "") :
    handleAnalyze s (.success body)
      = ([{ s with error := none },
          { s with error := none, loading := true },
          { s with error := none, loading := true, analysis := some body },
          { s with error := none, analysis := some body, loading := false }],
         [⟨"GET", "http://127.0.0.1:8000/analyze/" ++ s.ticker⟩]) := by
  simp [handleAnalyze, h]

/-- C2 witness: the success flow at a concrete state with a stale error. -/
theorem c2_success_flow_witness :
    handleAnalyze ⟨"AAPL", none, some (.jstr "old"), false⟩
        (.success (.jobj [("k", .jnum "1")]))
      = ([⟨"AAPL", none, none, false⟩,
          ⟨"AAPL", none, none, true⟩,
          ⟨"AAPL", some (.jobj [("k", .jnum "1")]), none, true⟩,
          ⟨"AAPL", some (.jobj [("k", .jnum "1")]), none, false⟩],
         [⟨"GET", "http://127.0.0.1:8000/analyze/AAPL"⟩]) :=
  c2_success_flow ⟨"AAPL", none, some (.jstr "old"), false⟩
    (.jobj [("k", .jnum "1")]) (by decide)

/-- C3: the claim says the displayed error equals the server-supplied field
whenever the failure body contains one, but `err.response?.data?.error || ...`
selects by truthiness: for the body with an empty-string `error` field the
display is the fallback, not the empty field. -/
theorem c3_empty_field_counterexample :
    errorDisplay (finalState ⟨"TSLA", none, none, false⟩
        (.failure (some (.jobj [("error", .jstr "")]))))
      = some fallbackMsg
    ∧ fallbackMsg ≠ "" := by
  exact ⟨rfl, by decide⟩

/-- C3 (amended): for a failure body carrying a non-empty (truthy) string
`error` field, the displayed error text equals that field exactly; for a
failure with no parseable body (no response data at all), the displayed text
is exactly the fallback message. -/
theorem c3_error_message_display (s : AppState) (m : String)
    (hne : s.ticker ≠ "") (hm : m ≠ "") :
    errorDisplay (finalState s (.failure (some (.jobj [("error", .jstr m)]))))
        = some m
      ∧ errorDisplay (finalState s (.failure none)) = some fallbackMsg := by
  have hm' : m.isEmpty = false := by
    rw [Bool.eq_false_iff]
    intro hc
    exact hm (String.isEmpty_iff m |>.mp hc)
  have hfb : ("An error occurred." : String).isEmpty = false := by decide
  constructor
  · simp [finalState, handleAnalyze, catchErrorValue, Json.get, errorDisplay,
      Json.truthy, Json.inlineText, hne, hm', List.lookup]
  · simp [finalState, handleAnalyze, catchErrorValue, errorDisplay,
      Json.truthy, Json.inlineText, hne, fallbackMsg, hfb]

/-- C3 witness: the body `{ error: "Ticker not found" }` displays exactly
`Ticker not found`; a response-less failure displays the fallback. -/
theorem c3_error_message_display_witness :
    errorDisplay (finalState ⟨"TSLA", none, none, false⟩
        (.failure (some (.jobj [("error", .jstr "Ticker not found")]))))
        = some "Ticker not found"
      ∧ errorDisplay (finalState ⟨"TSLA", none, none, false⟩ (.failure none))
        = some fallbackMsg :=
  c3_error_message_display ⟨"TSLA", none, none, false⟩ "Ticker not found"
    (by decide) (by decide)

/-- C4: on every failing invocation — whatever the ticker and whatever the
failure response — `analysis` is left unchanged; it is only ever overwritten
on the success branch. -/
theorem c4_analysis_untouched_on_failure (s : AppState) (resp : Option Json) :
    (finalState s (.failure resp)).analysis = s.analysis := by
  by_cases h : s.ticker = "" <;>
    simp [finalState, handleAnalyze, h]

/-- C5: past validation, `loading` goes from its idle value `false` to `true`
and stays `true` while the response is processed, and the `finally` branch
resets it to `false` on both the success and the failure path. -/
theorem c5_loading_lifecycle (s : AppState) (r : HttpResult)
    (hne : s.ticker ≠ "") (hidle : s.loading = false) :
    ((handleAnalyze s r).1.map AppState.loading = [false, true, true, false])
      ∧ (finalState s r).loading = false := by
  cases r <;>
    simp [handleAnalyze, finalState, hne, hidle]

/-- C5 witness: the loading profile on a concrete success and the final flag
on a concrete failure. -/
theorem c5_loading_lifecycle_witness :
    ((handleAnalyze ⟨"AAPL", none, none, false⟩ (.success (.jobj []))).1.map
        AppState.loading = [false, true, true, false])
      ∧ (finalState ⟨"AAPL", none, none, false⟩
          (.success (.jobj []))).loading = false :=
  c5_loading_lifecycle ⟨"AAPL", none, none, false⟩ (.success (.jobj []))
    (by decide) rfl

/-- C6: the claim says a 2xx response with a malformed body takes the error
path, but the code never inspects the body shape on success: the empty object
`{}` is accepted wholesale as the new `analysis` and no error is set or
displayed. -/
theorem c6_malformed_success_counterexample :
    finalState ⟨"AAPL", none, none, false⟩ (.success (.jobj []))
        = ⟨"AAPL", some (.jobj []), none, false⟩
      ∧ errorDisplay (finalState ⟨"AAPL", none, none, false⟩
          (.success (.jobj []))) = none := by
  exact ⟨rfl, rfl⟩

/-- C6 (amended): every 2xx response — whatever the shape of its body — takes
the success path: `analysis` is replaced wholesale with the body and `error`
stays cleared; only thrown requests (network errors and non-2xx responses)
take the error path. -/
theorem c6_success_accepts_any_body (s : AppState) (body : Json)
    (h : s.ticker ≠ "") :
    finalState s (.success body)
      = { s with analysis := some body, error := none, loading := false } := by
  simp [finalState, handleAnalyze, h]

/-- C6 witness: a shapeless 2xx body accepted at a concrete state. -/
theorem c6_success_accepts_any_body_witness :
    finalState ⟨"MSFT", none, some (.jstr "old"), true⟩ (.success .jnull)
      = ⟨"MSFT", some .jnull, none, false⟩ :=
  c6_success_accepts_any_body ⟨"MSFT", none, some (.jstr "old"), true⟩
    .jnull (by decide)

/-- C7: for the worked-example success body and ticker `RELIANCE.NS`, the
rendered output is exactly the listed elements — containing the heading
`Risk Analysis for RELIANCE.NS`, the list item `volatility: 0.23`, the text
`High`, and the image whose source is `data:image/png;base64,iVBORw0KG...` —
and in general the metric list items follow the insertion order of the
received `metrics` object. -/
theorem c7_example_render :
    render (finalState ⟨"RELIANCE.NS", none, none, false⟩
        (.success exampleBody))
      = [.heading "Stock Risk Analyzer",
         .input "RELIANCE.NS" "Enter stock ticker (e.g., RELIANCE.NS)",
         .button "Analyze" false,
         .heading "Risk Analysis for RELIANCE.NS",
         .para "Risk Category: High",
         .heading "Metrics:",
         .listItem "volatility: 0.23",
         .heading "Analysis:",
         .pre "\x7b\n  \"risk_category\": \"High\"\n\x7d",
         .heading "Plot:",
         .image "data:image/png;base64,iVBORw0KG..." "Risk Analysis Plot"]
    ∧ (∀ (fs rest : List (String × Json)),
        metricItems (.jobj (("metrics", .jobj fs) :: rest))
          = fs.map (fun kv => .listItem (kv.1 ++ ": " ++ kv.2.inlineText))) := by
  refine ⟨rfl, ?_⟩
  intro fs rest
  simp [metricItems, entriesOf, Json.get, List.lookup]

/-- C8: running the same successful request twice in sequence is idempotent:
the state after the second invocation equals the state after the first, and
therefore the rendered output is identical both times. -/
theorem c8_success_idempotent (s : AppState) (body : Json)
    (h : s.ticker ≠ "") :
    finalState (finalState s (.success body)) (.success body)
        = finalState s (.success body)
      ∧ render (finalState (finalState s (.success body)) (.success body))
        = render (finalState s (.success body)) := by
  have h1 : finalState s (.success body)
      = { s with analysis := some body, error := none, loading := false } := by
    simp [finalState, handleAnalyze, h]
  have h2 : finalState (finalState s (.success body)) (.success body)
      = finalState s (.success body) := by
    rw [h1]
    simp [finalState, handleAnalyze, h]
  exact ⟨h2, by rw [h2]⟩

/-- C8 witness: two identical successful requests at a concrete state. -/
theorem c8_success_idempotent_witness :
    finalState (finalState ⟨"INFY.NS", none, none, false⟩
          (.success exampleBody)) (.success exampleBody)
        = finalState ⟨"INFY.NS", none, none, false⟩ (.success exampleBody)
      ∧ render (finalState (finalState ⟨"INFY.NS", none, none, false⟩
          (.success exampleBody)) (.success exampleBody))
        = render (finalState ⟨"INFY.NS", none, none, false⟩
          (.success exampleBody)) :=
  c8_success_idempotent ⟨"INFY.NS", none, none, false⟩ exampleBody (by decide)

/-- C9: when the failure body carries an `error` field whose value is falsy
(the empty string in particular), the `||` fallback fires and the displayed
error text is the generic message, not the server-supplied value. -/
theorem c9_falsy_error_field (s : AppState) (b v : Json)
    (hne : s.ticker ≠ "") (hget : b.get "error" = some v)
    (hfalsy : v.truthy = false) :
    errorDisplay (finalState s (.failure (some b))) = some fallbackMsg := by
  have hfb : ("An error occurred." : String).isEmpty = false := by decide
  have hcv : catchErrorValue (some b) = .jstr fallbackMsg := by
    simp [catchErrorValue, hget, hfalsy]
  simp [finalState, handleAnalyze, hne, errorDisplay, hcv, Json.truthy,
    Json.inlineText, fallbackMsg, hfb]

/-- C9 witness: the body `{ error: "" }` displays the fallback message. -/
theorem c9_falsy_error_field_witness :
    errorDisplay (finalState ⟨"NFLX", none, none, false⟩
        (.failure (some (.jobj [("error", .jstr "")]))))
      = some fallbackMsg :=
  c9_falsy_error_field ⟨"NFLX", none, none, false⟩
    (.jobj [("error", .jstr "")]) (.jstr "") (by decide) rfl rfl

/-- C10: the empty-ticker validation path modifies only `error`: the final
state is the input state with `error` replaced by the validation message, so
`ticker`, `analysis` and `loading` are all left unchanged. -/
theorem c10_empty_path_only_error (s : AppState) (r : HttpResult)
    (h : s.ticker = "") :
    finalState s r = { s with error := some (.jstr validationMsg) } := by
  simp [finalState, handleAnalyze, h]

/-- C10 witness: the empty-ticker path at a state with a visible analysis and
an active loading flag; only `error` changes. -/
theorem c10_empty_path_only_error_witness :
    finalState ⟨"", some exampleBody, none, true⟩ (.success (.jobj []))
      = ⟨"", some exampleBody, some (.jstr validationMsg), true⟩ :=
  c10_empty_path_only_error ⟨"", some exampleBody, none, true⟩
    (.success (.jobj [])) rfl
